import Mathlib

/-!
Verification of the DBJavaGenix build-dependency reconciliation engine.

The Lean definitions below are a shallow embedding of the Python sources in
`src/dbjavagenix/utils/` (`dependency_requirements.py`, `pom_analyzer.py`,
`dependency_manager.py`, `auto_dependency_manager.py`).  Pure Python
functions become Lean functions; the mutable catalog state of
`DependencyRequirements` becomes explicit state passing; file contents are
threaded as explicit string/character-list values.  Python standard-library
behaviour that the claims never inspect (the `xml.etree` well-formedness
check and the regex-based repair pass of `auto_dependency_manager.py`) is
abstracted as function parameters, so every theorem about them holds for
any instantiation, in particular for the real ones.
-/

namespace DBJavaGenix

/-! ## Data model (`dependency_requirements.py`, `pom_analyzer.py`) -/

/-- Embeds the `DependencyStatus` enum of `dependency_requirements.py`. -/
inductive DependencyStatus where
  | required
  | optional
  | deprecated
  | recommended
deriving DecidableEq, Repr

/-- Embeds the `DependencyInfo` dataclass of `dependency_requirements.py`.
It is an inductive type (rather than a structure) because the optional
`migration_target` field recursively holds another `DependencyInfo`. -/
inductive DependencyInfo where
  | mk
    (group_id : String)
    (artifact_id : String)
    (version : String)
    (scope : String)
    (status : DependencyStatus)
    (description : String)
    (migration_target : Option DependencyInfo)
    (reason : String)

def DependencyInfo.group_id : DependencyInfo → String
  | .mk g _ _ _ _ _ _ _ => g

def DependencyInfo.artifact_id : DependencyInfo → String
  | .mk _ a _ _ _ _ _ _ => a

def DependencyInfo.version : DependencyInfo → String
  | .mk _ _ v _ _ _ _ _ => v

def DependencyInfo.scope : DependencyInfo → String
  | .mk _ _ _ s _ _ _ _ => s

def DependencyInfo.status : DependencyInfo → DependencyStatus
  | .mk _ _ _ _ st _ _ _ => st

def DependencyInfo.description : DependencyInfo → String
  | .mk _ _ _ _ _ d _ _ => d

def DependencyInfo.migration_target : DependencyInfo → Option DependencyInfo
  | .mk _ _ _ _ _ _ m _ => m

def DependencyInfo.reason : DependencyInfo → String
  | .mk _ _ _ _ _ _ _ r => r

/-- Python f-string key `f"{group_id}:{artifact_id}"` used throughout the
sources to identify a coordinate. -/
def coordKey (g a : String) : String := g ++ ":" ++ a

/-- Coordinate key of a requirement, as built in `_compare_dependencies`
and `auto_add_missing_dependencies`. -/
def DependencyInfo.key (d : DependencyInfo) : String := coordKey d.group_id d.artifact_id

/-- Embeds the `ExistingDependency` dataclass of `pom_analyzer.py`. -/
structure ExistingDependency where
  group_id : String
  artifact_id : String
  version : Option String := none
  scope : String := "compile"
  source_line : Option Nat := none
deriving DecidableEq, Repr

def ExistingDependency.key (e : ExistingDependency) : String :=
  coordKey e.group_id e.artifact_id

/-- Embeds the `DependencyComparison` dataclass of `pom_analyzer.py`. -/
structure DependencyComparison where
  requirement : DependencyInfo
  existing : Option ExistingDependency := none
  status : String := "missing"
  recommendation : String := ""
  maven_xml : String := ""

/-! ## Version comparison (`PomAnalyzer._is_version_outdated`) -/

/-- Python `s.split('.')` (single-character separator) over the character
list of the string: empty pieces are kept, `"".split('.')` is `[""]`. -/
def splitDot : List Char → List (List Char)
  | [] => [[]]
  | c :: cs =>
    if c = '.' then [] :: splitDot cs
    else
      match splitDot cs with
      | h :: t => (c :: h) :: t
      | [] => [[c]]

/-- Python `str.isdigit` restricted to ASCII digits: true iff the piece is
nonempty and every character is a decimal digit.  (The version strings the
program handles are ASCII; the exotic Unicode digits accepted by Python
`str.isdigit` and subsequently rejected by `int` are not modelled.) -/
def pyIsDigit (l : List Char) : Bool := !l.isEmpty && l.all (fun c => c.isDigit)

/-- Python `int` on a string of decimal digits. -/
def digitsToNat (l : List Char) : Nat :=
  l.foldl (fun n c => n * 10 + (c.toNat - 48)) 0

/-- The numeric components of a version string, as computed by
`[int(x) for x in v.split('.') if x.isdigit()]`. -/
def versionParts (v : String) : List Nat :=
  ((splitDot v.data).filter pyIsDigit).map digitsToNat

/-- Pad a list of numbers with trailing zeros up to length `n`
(`parts.extend([0] * (max_len - len(parts)))`). -/
def padZeros (l : List Nat) (n : Nat) : List Nat :=
  l ++ List.replicate (n - l.length) 0

/-- Python `<` on two lists of integers (lexicographic). -/
def pyListLt : List Nat → List Nat → Bool
  | [], [] => false
  | [], _ :: _ => true
  | _ :: _, [] => false
  | a :: as, b :: bs => if a < b then true else if b < a then false else pyListLt as bs

/-- Embeds `PomAnalyzer._is_version_outdated`.  The `try/except` of the
source cannot fire on ASCII input (only all-digit components reach `int`),
so the body is the plain comparison. -/
def is_version_outdated (current required : String) : Bool :=
  let current_parts := versionParts current
  let required_parts := versionParts required
  let max_len := max current_parts.length required_parts.length
  pyListLt (padZeros current_parts max_len) (padZeros required_parts max_len)

/-! ## Comparator (`PomAnalyzer._compare_dependencies`) -/

/-- Embeds `PomAnalyzer._format_maven_dependency`. -/
def format_maven_dependency (dep : DependencyInfo) : String :=
  let comment := "    <!-- " ++ dep.description ++ ": " ++ dep.reason ++ " -->"
  let xml_lines := [comment,
    "    <dependency>",
    "        <groupId>" ++ dep.group_id ++ "</groupId>",
    "        <artifactId>" ++ dep.artifact_id ++ "</artifactId>",
    "        <version>" ++ dep.version ++ "</version>"]
  let xml_lines := if dep.scope ≠ "compile" then xml_lines ++ ["        <scope>" ++ dep.scope ++ "</scope>"] else xml_lines
  String.intercalate "\n" (xml_lines ++ ["    </dependency>"])

/-- Lookup in the dictionary `existing_dict` built by
`_compare_dependencies`: Python dict insertion overwrites, so the last
dependency with a given key wins. -/
def existingLookup (deps : List ExistingDependency) (k : String) : Option ExistingDependency :=
  deps.reverse.find? (fun e => e.key == k)

/-- Classification of a single requirement against the dictionary entry
sharing its key, following the `if/elif/else` chain of
`_compare_dependencies`. -/
def compareOne (req : DependencyInfo) (existing : Option ExistingDependency) :
    DependencyComparison :=
  match existing with
  | none =>
    { requirement := req, existing := none, status := "missing",
      recommendation := "添加" ++ req.description,
      maven_xml := format_maven_dependency req }
  | some e =>
    if req.status = DependencyStatus.deprecated then
      { requirement := req, existing := some e, status := "deprecated",
        recommendation :=
          match req.migration_target with
          | some t => "建议迁移到新版本: " ++ t.group_id ++ ":" ++ t.artifact_id
          | none => "依赖已过时",
        maven_xml := "" }
    else
      match e.version with
      | some v =>
        if v ≠ "" && is_version_outdated v req.version then
          { requirement := req, existing := some e, status := "outdated",
            recommendation := "建议升级版本: " ++ v ++ " -> " ++ req.version,
            maven_xml := format_maven_dependency req }
        else
          { requirement := req, existing := some e, status := "exists",
            recommendation := "依赖已存在且版本合适", maven_xml := "" }
      | none =>
        { requirement := req, existing := some e, status := "exists",
          recommendation := "依赖已存在且版本合适", maven_xml := "" }

/-- The four buckets returned by
`DependencyRequirements.analyze_requirements` (a Python dict with fixed
insertion order required/optional/recommended/deprecated). -/
structure Requirements where
  required : List DependencyInfo := []
  optional : List DependencyInfo := []
  recommended : List DependencyInfo := []
  deprecated : List DependencyInfo := []

/-- Iteration order of `requirements.items()` in `_compare_dependencies`. -/
def Requirements.allDeps (r : Requirements) : List DependencyInfo :=
  r.required ++ r.optional ++ r.recommended ++ r.deprecated

/-- Embeds `PomAnalyzer._compare_dependencies`. -/
def compare_dependencies (requirements : Requirements)
    (existing_deps : List ExistingDependency) : List DependencyComparison :=
  requirements.allDeps.map (fun req => compareOne req (existingLookup existing_deps req.key))



/-! ## Summary and health score (`PomAnalyzer._generate_summary`,
`DependencyManager.get_dependency_health_report`) -/

/-- Number of comparisons with the given status, as the list
comprehensions `len([c for c in comparisons if c.status == s])`. -/
def countStatus (comps : List DependencyComparison) (s : String) : Nat :=
  (comps.filter (fun c => c.status == s)).length

/-- Embeds the health-score computation of
`DependencyManager.get_dependency_health_report`:
`max(0, 100 - (missing_count * 10 + outdated_count * 5 + deprecated_count * 5))`. -/
def health_report_score (comps : List DependencyComparison) : Int :=
  max 0 (100 - ((countStatus comps "missing" : Int) * 10 +
    (countStatus comps "outdated" : Int) * 5 + (countStatus comps "deprecated" : Int) * 5))

/-- Embeds the dictionary built by `PomAnalyzer._generate_summary`. -/
structure AnalysisSummary where
  total_requirements : Nat
  missing : Nat
  exists_count : Nat
  outdated : Nat
  deprecated : Nat
  needs_attention : Nat
  health_score : Int
deriving DecidableEq, Repr

/-- Embeds `PomAnalyzer._generate_summary`. -/
def generate_summary (comps : List DependencyComparison) : AnalysisSummary :=
  let missing := countStatus comps "missing"
  let exists_count := countStatus comps "exists"
  let outdated := countStatus comps "outdated"
  let deprecated := countStatus comps "deprecated"
  let needs_attention := missing + outdated + deprecated
  { total_requirements := comps.length
    missing := missing
    exists_count := exists_count
    outdated := outdated
    deprecated := deprecated
    needs_attention := needs_attention
    health_score := max 0 (100 - (needs_attention : Int) * 10) }

/-- Sample catalog requirement used to build concrete comparison lists in
witness statements. -/
def sampleReq : DependencyInfo :=
  .mk "org.springframework.boot" "spring-boot-starter" "3.5.5" "compile"
    DependencyStatus.required "Spring Boot核心启动器" none "Spring Boot应用的基础依赖"

/-- Requirements profile consisting of the single sample requirement. -/
def sampleReqs : Requirements := { required := [sampleReq] }

/-- Concrete comparison list with 2 missing and 1 outdated comparison. -/
def scoreComps : List DependencyComparison :=
  [ { requirement := sampleReq, status := "missing" },
    { requirement := sampleReq, status := "missing" },
    { requirement := sampleReq, status := "outdated" } ]

/-- Concrete comparison list with 10 missing and 1 outdated comparison
(both score formulas clamp to zero on it). -/
def clampComps : List DependencyComparison :=
  List.replicate 10 ({ requirement := sampleReq, status := "missing" } : DependencyComparison) ++
    [ { requirement := sampleReq, status := "outdated" } ]

/-- Specification-side strict ordering on version-number tuples: some index
has a strictly smaller entry on the left (reading a missing entry as 0)
while all earlier indices agree. -/
def vecLt (a b : List Nat) : Prop :=
  ∃ i, (∀ j, j < i → a.getD j 0 = b.getD j 0) ∧ a.getD i 0 < b.getD i 0


/-! ## Requirement catalog (`dependency_requirements.py`)

The only mutable state of `DependencyRequirements` consists of the six
fields rewritten by `adjust_versions_for_spring_boot` (the `version` of
`mybatis`, the `version`/`artifact_id` of `mybatis-plus`, and the
`group_id`/`artifact_id`/`version` of `mysql`); all other catalog entries
are fixed at construction.  That mutable part is modelled as an explicit
`CatalogState` threaded through the calls. -/

/-- Python `str.startswith` over the character lists. -/
def pyStartsWith (s p : String) : Bool := p.data.isPrefixOf s.data

/-- Python `str.lower` (ASCII). -/
def pyLower (s : String) : String := ⟨s.data.map Char.toLower⟩

/-- The catalog fields mutated by `adjust_versions_for_spring_boot`. -/
structure CatalogState where
  mybatis_version : String
  mybatis_plus_version : String
  mybatis_plus_artifact : String
  mysql_group : String
  mysql_artifact : String
  mysql_version : String
deriving DecidableEq, Repr

/-- The state established by `_initialize_dependency_catalog`. -/
def initCatalog : CatalogState :=
  { mybatis_version := "3.5.16"
    mybatis_plus_version := "3.5.7"
    mybatis_plus_artifact := "mybatis-plus-spring-boot3-starter"
    mysql_group := "com.mysql"
    mysql_artifact := "mysql-connector-j"
    mysql_version := "8.4.0" }

def spring_boot_starter_dep : DependencyInfo :=
  .mk "org.springframework.boot" "spring-boot-starter" "3.5.5" "compile"
    DependencyStatus.required "Spring Boot核心启动器" none "Spring Boot应用的基础依赖"

def spring_boot_starter_web : DependencyInfo :=
  .mk "org.springframework.boot" "spring-boot-starter-web" "3.5.5" "compile"
    DependencyStatus.required "Spring Boot Web启动器" none "构建Web应用和REST API"

def spring_boot_starter_data_jpa : DependencyInfo :=
  .mk "org.springframework.boot" "spring-boot-starter-data-jpa" "3.5.5" "compile"
    DependencyStatus.required "Spring Data JPA启动器" none "JPA数据访问支持"

def spring_boot_starter_validation : DependencyInfo :=
  .mk "org.springframework.boot" "spring-boot-starter-validation" "3.5.5" "compile"
    DependencyStatus.required "Bean验证启动器" none "支持@Valid注解和参数验证"

/-- The `"mysql"` entry of `DATABASE_DEPENDENCIES`; its coordinate and
version live in the mutable state. -/
def mysqlDep (st : CatalogState) : DependencyInfo :=
  .mk st.mysql_group st.mysql_artifact st.mysql_version "compile"
    DependencyStatus.required "MySQL 8.0+ JDBC驱动" none "连接MySQL数据库"

/-- The `"mysql-legacy"` entry of `DATABASE_DEPENDENCIES`: deprecated and
with no `migration_target` assigned anywhere in the source. -/
def mysql_legacy : DependencyInfo :=
  .mk "mysql" "mysql-connector-java" "8.0.33" "compile"
    DependencyStatus.deprecated "MySQL旧版JDBC驱动" none "连接MySQL数据库（已过时）"

def postgresqlDep : DependencyInfo :=
  .mk "org.postgresql" "postgresql" "42.7.4" "compile"
    DependencyStatus.required "PostgreSQL JDBC驱动" none "连接PostgreSQL数据库"

def sqliteDep : DependencyInfo :=
  .mk "org.xerial" "sqlite-jdbc" "3.46.1.3" "compile"
    DependencyStatus.required "SQLite JDBC驱动" none "连接SQLite数据库"

/-- The `"mybatis"` entry of `MYBATIS_DEPENDENCIES`; its version lives in
the mutable state. -/
def mybatisDep (st : CatalogState) : DependencyInfo :=
  .mk "org.mybatis" "mybatis" st.mybatis_version "compile"
    DependencyStatus.required "MyBatis核心持久层框架" none "MyBatis ORM框架的核心依赖"

def mybatis_spring_boot : DependencyInfo :=
  .mk "org.mybatis.spring.boot" "mybatis-spring-boot-starter" "3.0.4" "compile"
    DependencyStatus.required "MyBatis Spring Boot启动器" none "MyBatis集成Spring Boot支持"

/-- The `"mybatis-plus"` entry of `MYBATIS_DEPENDENCIES`; its version and
artifact id live in the mutable state. -/
def mybatisPlusDep (st : CatalogState) : DependencyInfo :=
  .mk "com.baomidou" st.mybatis_plus_artifact st.mybatis_plus_version "compile"
    DependencyStatus.required "MyBatis-Plus Spring Boot 3启动器" none "MyBatis-Plus增强功能，包含MyBatis核心"

def mybatis_plus_generator : DependencyInfo :=
  .mk "com.baomidou" "mybatis-plus-generator" "3.5.7" "compile"
    DependencyStatus.optional "MyBatis-Plus代码生成器" none "支持MyBatis-Plus代码生成"

def velocity_engine : DependencyInfo :=
  .mk "org.apache.velocity" "velocity-engine-core" "2.4.1" "compile"
    DependencyStatus.optional "Velocity模板引擎" none "MyBatis-Plus代码生成器的模板引擎"

def freemarkerDep : DependencyInfo :=
  .mk "org.freemarker" "freemarker" "2.3.33" "compile"
    DependencyStatus.optional "FreeMarker模板引擎" none "MyBatis-Plus代码生成器的替代模板引擎"

def lombokDep : DependencyInfo :=
  .mk "org.projectlombok" "lombok" "1.18.36" "compile"
    DependencyStatus.optional "Lombok代码生成工具" none "减少样板代码，支持@Data等注解"

def mapstructDep : DependencyInfo :=
  .mk "org.mapstruct" "mapstruct" "1.6.3" "compile"
    DependencyStatus.optional "MapStruct对象映射框架" none "自动生成对象映射代码"

def mapstruct_processor : DependencyInfo :=
  .mk "org.mapstruct" "mapstruct-processor" "1.6.3" "provided"
    DependencyStatus.optional "MapStruct注解处理器" none "编译时生成映射实现"

def springdoc_openapi : DependencyInfo :=
  .mk "org.springdoc" "springdoc-openapi-starter-webmvc-ui" "2.7.0" "compile"
    DependencyStatus.recommended "SpringDoc OpenAPI 3.0支持" none "生成现代化的API文档"

/-- `swagger-annotations-deprecated`, whose migration target is set to the
`springdoc-openapi` entry at catalog construction. -/
def swagger_annotations_deprecated : DependencyInfo :=
  .mk "io.swagger" "swagger-annotations" "1.6.14" "compile"
    DependencyStatus.deprecated "Swagger 2.x注解 (已过时)" (some springdoc_openapi)
    "Swagger API文档注解 (建议迁移到OpenAPI 3.0)"

def jakarta_annotation : DependencyInfo :=
  .mk "jakarta.annotation" "jakarta.annotation-api" "2.1.1" "compile"
    DependencyStatus.recommended "Jakarta EE注解API" none "现代化的Java EE注解支持"

def jakarta_validation : DependencyInfo :=
  .mk "jakarta.validation" "jakarta.validation-api" "3.0.2" "compile"
    DependencyStatus.recommended "Jakarta Bean Validation API" none "现代化的Bean验证支持"

def javax_annotation_deprecated : DependencyInfo :=
  .mk "javax.annotation" "javax.annotation-api" "1.3.2" "compile"
    DependencyStatus.deprecated "Javax注解API (已过时)" (some jakarta_annotation)
    "Java EE注解支持 (建议迁移到jakarta)"

def javax_validation_deprecated : DependencyInfo :=
  .mk "javax.validation" "validation-api" "2.0.1.Final" "compile"
    DependencyStatus.deprecated "Javax Bean Validation API (已过时)" (some jakarta_validation)
    "Bean验证支持 (建议迁移到jakarta)"

/-- All entries of the four catalog dictionaries
(`SPRING_BOOT_DEPENDENCIES`, `DATABASE_DEPENDENCIES`,
`MYBATIS_DEPENDENCIES`, `TOOL_DEPENDENCIES`) for a given state. -/
def catalogEntries (st : CatalogState) : List DependencyInfo :=
  [spring_boot_starter_dep, spring_boot_starter_web, spring_boot_starter_data_jpa,
   spring_boot_starter_validation,
   mysqlDep st, mysql_legacy, postgresqlDep, sqliteDep,
   mybatisDep st, mybatis_spring_boot, mybatisPlusDep st, mybatis_plus_generator,
   velocity_engine, freemarkerDep,
   lombokDep, mapstructDep, mapstruct_processor, springdoc_openapi,
   swagger_annotations_deprecated, jakarta_annotation, jakarta_validation,
   javax_annotation_deprecated, javax_validation_deprecated]

/-- The fields of the compatibility dictionary returned by
`get_spring_boot_version_compatibility` that
`adjust_versions_for_spring_boot` reads (the remaining fields of the
Python dict are never consumed by the engine). -/
structure SpringBootCompat where
  mybatis_version : String
  mybatis_plus_version : String
  mysql_connector_version : String
deriving DecidableEq, Repr

/-- Embeds `get_spring_boot_version_compatibility`. -/
def get_spring_boot_version_compatibility (version : String) : SpringBootCompat :=
  if pyStartsWith version "2." then
    { mybatis_version := "3.4.6", mybatis_plus_version := "3.4.3",
      mysql_connector_version := "8.0.33" }
  else if pyStartsWith version "3.0" || pyStartsWith version "3.1" then
    { mybatis_version := "3.5.10", mybatis_plus_version := "3.5.3",
      mysql_connector_version := "8.3.0" }
  else if pyStartsWith version "3.2" || pyStartsWith version "3.3" then
    { mybatis_version := "3.5.14", mybatis_plus_version := "3.5.5",
      mysql_connector_version := "8.3.0" }
  else if pyStartsWith version "3.4" || pyStartsWith version "3.5" then
    { mybatis_version := "3.5.16", mybatis_plus_version := "3.5.7",
      mysql_connector_version := "8.4.0" }
  else
    { mybatis_version := "3.5.16", mybatis_plus_version := "3.5.7",
      mysql_connector_version := "8.4.0" }

/-- Embeds `adjust_versions_for_spring_boot`, which mutates the six
state-resident catalog fields in place. -/
def adjust_versions_for_spring_boot (st : CatalogState) (spring_boot_version : String) :
    CatalogState :=
  let compat := get_spring_boot_version_compatibility spring_boot_version
  { st with
    mybatis_version := compat.mybatis_version
    mybatis_plus_version := compat.mybatis_plus_version
    mybatis_plus_artifact :=
      if pyStartsWith spring_boot_version "2." then "mybatis-plus-boot-starter"
      else "mybatis-plus-spring-boot3-starter"
    mysql_group :=
      if pyStartsWith compat.mysql_connector_version "8.4" then "com.mysql" else "mysql"
    mysql_artifact :=
      if pyStartsWith compat.mysql_connector_version "8.4" then "mysql-connector-j"
      else "mysql-connector-java"
    mysql_version := compat.mysql_connector_version }

/-- The `DATABASE_DEPENDENCIES[db_key]` lookup of `analyze_requirements`. -/
def databaseLookup (st : CatalogState) (db_key : String) : Option DependencyInfo :=
  if db_key == "mysql" then some (mysqlDep st)
  else if db_key == "mysql-legacy" then some mysql_legacy
  else if db_key == "postgresql" then some postgresqlDep
  else if db_key == "sqlite" then some sqliteDep
  else none

/-- Embeds `DependencyRequirements.analyze_requirements`.  The returned
state records the in-place version adjustment performed when a (truthy)
Spring Boot version is supplied; the returned buckets are built from the
possibly-adjusted state, exactly as the source reads the catalog dicts
after the conditional `adjust_versions_for_spring_boot` call. -/
def analyze_requirements (st : CatalogState) (template_category database_type : String)
    (include_swagger include_lombok include_mapstruct : Bool)
    (spring_boot_version : Option String) : CatalogState × Requirements :=
  let st := match spring_boot_version with
    | some v => if v ≠ "" then adjust_versions_for_spring_boot st v else st
    | none => st
  let required := [spring_boot_starter_dep, spring_boot_starter_web,
    spring_boot_starter_validation]
  let required := required ++
    (match databaseLookup st (pyLower database_type) with
     | some d => [d]
     | none => [])
  let required := required ++
    (if template_category == "Default" then [mybatisDep st, mybatis_spring_boot]
     else if template_category == "MybatisPlus" || template_category == "MybatisPlus-Mixed" then
       [mybatisPlusDep st]
     else [])
  let optionalDeps := (if include_lombok then [lombokDep] else []) ++
    (if include_mapstruct then [mapstructDep, mapstruct_processor] else [])
  let recommendedDeps := (if include_swagger then [springdoc_openapi] else []) ++
    [ jakarta_annotation, jakarta_validation]
  let deprecatedDeps := (if include_swagger then [swagger_annotations_deprecated] else []) ++
    [javax_annotation_deprecated, javax_validation_deprecated]
  (st, { required := required, optional := optionalDeps,
         recommended := recommendedDeps, deprecated := deprecatedDeps })


/-! ## Auto-add selection filter
(`PomAnalyzer.auto_add_missing_dependencies`) -/

/-- The `uses_legacy_swagger` flag of `auto_add_missing_dependencies`,
computed over the coordinate keys parsed from the manifest. -/
def uses_legacy_swagger (existing_coords : List String) : Bool :=
  existing_coords.any (fun c =>
    pyStartsWith c "io.springfox:" || c == "io.swagger:swagger-annotations")

/-- The `is_boot2` flag of `auto_add_missing_dependencies`
(`bool(boot_version and str(boot_version).startswith("2."))`). -/
def is_boot2 (boot_version : Option String) : Bool :=
  match boot_version with
  | some v => pyStartsWith v "2."
  | none => false

/-- Embeds the local `is_allowed` predicate of
`auto_add_missing_dependencies`. -/
def is_allowed (boot2 legacy_swagger : Bool) (comp : DependencyComparison) : Bool :=
  let coord := comp.requirement.key
  if coord == "org.springframework.boot:spring-boot-starter-data-jpa" then false
  else if coord == "org.mybatis:mybatis" then false
  else if (boot2 || legacy_swagger) && pyStartsWith coord "org.springdoc:" then false
  else if !(boot2 || legacy_swagger) &&
      (pyStartsWith coord "io.swagger:" || pyStartsWith coord "io.springfox:") then false
  else if pyStartsWith comp.requirement.group_id "jakarta." then false
  else if pyStartsWith comp.requirement.group_id "javax." then false
  else true

/-- The requirements selected for insertion by
`auto_add_missing_dependencies`: allowed comparisons with status
`missing`. -/
def select_missing_for_add (existing_coords : List String) (boot_version : Option String)
    (comparison_results : List DependencyComparison) : List DependencyInfo :=
  ((comparison_results.filter
      (is_allowed (is_boot2 boot_version) (uses_legacy_swagger existing_coords))).filter
    (fun c => c.status == "missing")).map DependencyComparison.requirement

/-- Existing coordinates of a project that already uses the modern API-doc
library (springdoc). -/
def springdocCoords : List String := ["org.springdoc:springdoc-openapi-starter-webmvc-ui"]

/-- Comparison list in which the legacy swagger-annotations requirement is
missing from the manifest. -/
def swaggerComps : List DependencyComparison := [compareOne swagger_annotations_deprecated none]


/-! ## Deprecated-dependency auto-fix (`dependency_manager.py`) -/

/-- The names bound by the module header of `dependency_manager.py`
(its only imports are `typing` members, `pathlib.Path`,
`xml.etree.ElementTree as ET` and the three sibling-module classes).
The regex module `re` is not among them. -/
def dependency_manager_imports : List String :=
  ["Dict", "List", "Optional", "Any", "Path", "ET",
   "PomAnalyzer", "AutoDependencyManager", "DependencyRequirements"]

/-- Result dict of the auto-fix helpers of `dependency_manager.py`. -/
structure FixResult where
  success : Bool
  message : String
deriving DecidableEq, Repr

/-- Embeds `DependencyManager._fix_maven_deprecated_deps`.  Its first loop
iteration evaluates `re.sub`, so the module-level name `re` is resolved
before any substitution or file write; `dependency_manager.py` never
imports `re`, so that lookup raises `NameError` and everything after it —
the coordinate rewriting and the write-back — is unreachable.  The
substitution/write code therefore never executes and is not modelled
beyond this guard. -/
def fix_maven_deprecated_deps (pom_content : String) :
    Except String (FixResult × String) :=
  if "re" ∈ dependency_manager_imports then
    Except.ok ({ success := true, message := "成功修复过时依赖" }, pom_content)
  else
    Except.error "name 're' is not defined"

/-- Embeds the Maven path of
`DependencyManager._auto_fix_deprecated_dependencies`: the
`except Exception` handler turns the raised error into a failure result,
and the manifest content on disk stays whatever it was. -/
def auto_fix_deprecated_dependencies (pom_content : String) : FixResult × String :=
  match fix_maven_deprecated_deps pom_content with
  | Except.ok (res, newContent) => (res, newContent)
  | Except.error e => ({ success := false, message := "修复依赖失败: " ++ e }, pom_content)

/-- A manifest containing a catalog-known deprecated coordinate
(`javax.annotation:javax.annotation-api`), which makes
`check_and_fix_dependencies` enter the deprecated-fix path. -/
def deprecatedPom : String :=
  "<project><dependencies><dependency><groupId>javax.annotation</groupId><artifactId>javax.annotation-api</artifactId><version>1.3.2</version></dependency></dependencies></project>"


/-! ## String-based Maven insertion (`auto_dependency_manager.py`)

File contents are modelled as `List Char`.  The regular expressions of
`_parse_existing_dependencies_from_content` and
`_insert_dependencies_string_based` are embedded as deterministic
character scanners; the backtracking patterns involved
(`\s*\n?\s*` followed by a literal tag, `[^<]+` followed by a closing
tag) admit exactly the maximal-munch parse implemented here, because a
whitespace run can only end where a non-whitespace literal begins and a
`[^<]+` capture can never extend across the `<` that its closing literal
starts with. -/

/-- File contents as character lists. -/
abbrev Chars := List Char

/-- Character data of a string literal. -/
def chars (s : String) : Chars := s.data

/-- Python `\s` on ASCII text. -/
def isPyWs (c : Char) : Bool :=
  c == ' ' || c == '\t' || c == '\n' || c == '\r' || c == '\x0B' || c == '\x0C'

/-- Maximal whitespace run at the front: `s = w ++ r` with `w` the longest
all-whitespace prefix. -/
def takeWs : Chars → Chars × Chars
  | [] => ([], [])
  | c :: cs =>
    if isPyWs c then
      let p := takeWs cs
      (c :: p.1, p.2)
    else ([], c :: cs)

/-- Maximal `[^<]*` run at the front. -/
def takeNonLt : Chars → Chars × Chars
  | [] => ([], [])
  | c :: cs =>
    if c = '<' then ([], c :: cs)
    else
      let p := takeNonLt cs
      (c :: p.1, p.2)

/-- Match a literal prefix, returning the remainder. -/
def dropLit : Chars → Chars → Option Chars
  | [], s => some s
  | _ :: _, [] => none
  | l :: ls, c :: cs => if c = l then dropLit ls cs else none

/-- Python `str.strip()`: remove leading and trailing whitespace. -/
def pyStrip (l : Chars) : Chars :=
  ((takeWs ((takeWs l).2.reverse)).2).reverse

def litDependencyOpen : Chars := chars "<dependency>"
def litGroupIdOpen : Chars := chars "<groupId>"
def litGroupIdClose : Chars := chars "</groupId>"
def litArtifactIdOpen : Chars := chars "<artifactId>"
def litArtifactIdClose : Chars := chars "</artifactId>"
def litVersionOpen : Chars := chars "<version>"
def litVersionClose : Chars := chars "</version>"

/-- Result of the mandatory part of the dependency-block pattern
`<dependency>\s*\n?\s*<groupId>([^<]+)</groupId>\s*\n?\s*<artifactId>([^<]+)</artifactId>`. -/
structure MandMatch where
  g : Chars
  a : Chars
  rest : Chars

/-- Deterministic matcher for the mandatory part of the dependency-block
pattern at the start of `s`. -/
def matchMandAt (s : Chars) : Option MandMatch :=
  match dropLit litDependencyOpen s with
  | none => none
  | some s1 =>
    match dropLit litGroupIdOpen (takeWs s1).2 with
    | none => none
    | some s3 =>
      let gp := takeNonLt s3
      if gp.1.isEmpty then none
      else
        match dropLit litGroupIdClose gp.2 with
        | none => none
        | some s5 =>
          match dropLit litArtifactIdOpen (takeWs s5).2 with
          | none => none
          | some s7 =>
            let ap := takeNonLt s7
            if ap.1.isEmpty then none
            else
              match dropLit litArtifactIdClose ap.2 with
              | none => none
              | some s9 => some ⟨gp.1, ap.1, s9⟩

/-- Matcher for the optional version group
`(?:\s*\n?\s*<version>([^<]+)</version>)?`. -/
def matchVersionAt (s : Chars) : Option (Chars × Chars) :=
  match dropLit litVersionOpen (takeWs s).2 with
  | none => none
  | some s2 =>
    let vp := takeNonLt s2
    if vp.1.isEmpty then none
    else
      match dropLit litVersionClose vp.2 with
      | none => none
      | some s4 => some (vp.1, s4)

/-- A full match of the dependency-block pattern: the mandatory part plus
the optional version group (`v = []` when the group did not match, as
`re.findall` yields `\'\'` for an unmatched group). -/
structure DepMatch where
  g : Chars
  a : Chars
  v : Chars
  rest : Chars

def matchDepAt (s : Chars) : Option DepMatch :=
  match matchMandAt s with
  | none => none
  | some m =>
    match matchVersionAt m.rest with
    | none => some ⟨m.g, m.a, [], m.rest⟩
    | some (v, r) => some ⟨m.g, m.a, v, r⟩

/-- Leftmost non-overlapping scan, as `re.findall`: try the pattern at
each position, and continue after the end of each match.  The fuel is the
remaining length; each step consumes at least one character. -/
def scanDepsAux : Nat → Chars → List (Chars × Chars × Chars)
  | 0, _ => []
  | _ + 1, [] => []
  | fuel + 1, c :: cs =>
    match matchDepAt (c :: cs) with
    | some m => (m.g, m.a, m.v) :: scanDepsAux fuel m.rest
    | none => scanDepsAux fuel cs

/-- All matches of the dependency-block pattern in the content. -/
def findallDependencies (s : Chars) : List (Chars × Chars × Chars) :=
  scanDepsAux s.length s

/-- Dictionary key `f"{group_id.strip()}:{artifact_id.strip()}"`. -/
def depEntryKey (g a : Chars) : Chars := pyStrip g ++ ':' :: pyStrip a

/-- Embeds `_parse_existing_dependencies_from_content` as an association
list in match order (the Python dict keeps the last write per key). -/
def parse_existing_dependencies (content : Chars) : List (Chars × Chars) :=
  (findallDependencies content).map (fun e =>
    (depEntryKey e.1 e.2.1,
      if e.2.2.isEmpty then chars "未指定" else pyStrip e.2.2))

/-- Value of the Python dict built by
`_parse_existing_dependencies_from_content`: the last write wins. -/
def dictGetLast (al : List (Chars × Chars)) (k : Chars) : Option Chars :=
  (al.reverse.find? (fun e => e.1 == k)).map (fun e => e.2)

/-- Key of a requirement as the raw character list of
`f"{dep.group_id}:{dep.artifact_id}"`. -/
def depKeyChars (d : DependencyInfo) : Chars := (d.key).data

/-- Join a list of lines with newlines (Python `"\n".join`). -/
def joinLines : List Chars → Chars
  | [] => []
  | [l] => l
  | l :: l2 :: ls => l ++ '\n' :: joinLines (l2 :: ls)

/-- Embeds `_generate_single_dependency_lines`. -/
def generate_single_dependency_lines (dep : DependencyInfo) (indent : Chars) : List Chars :=
  [indent ++ chars "<!-- " ++ dep.description.data ++ chars ": " ++ dep.reason.data ++ chars " -->",
   indent ++ chars "<dependency>",
   indent ++ chars "    <groupId>" ++ dep.group_id.data ++ chars "</groupId>",
   indent ++ chars "    <artifactId>" ++ dep.artifact_id.data ++ chars "</artifactId>",
   indent ++ chars "    <version>" ++ dep.version.data ++ chars "</version>"] ++
  (if dep.scope ≠ "compile" then
    [indent ++ chars "    <scope>" ++ dep.scope.data ++ chars "</scope>"] else []) ++
  [indent ++ chars "</dependency>"]

/-- Embeds `_generate_dependencies_xml`. -/
def generate_dependencies_xml (deps : List DependencyInfo) : Chars :=
  joinLines ((deps.map (fun d => generate_single_dependency_lines d (chars "        "))).flatten)

/-- Embeds `_generate_dependencies_block`. -/
def generate_dependencies_block (deps : List DependencyInfo) : Chars :=
  joinLines ([chars "    <dependencies>", chars "        <!-- DBJavaGenix 自动添加的依赖 -->"] ++
    (deps.map (fun d => generate_single_dependency_lines d (chars "        "))).flatten ++
    [chars "    </dependencies>"])

/-- Split at the first occurrence of a literal: `s = pre ++ suf`, the
literal is a prefix of `suf`, and `pre` is shortest. -/
def splitAtLit (lit : Chars) : Chars → Option (Chars × Chars)
  | [] => if lit.isEmpty then some ([], []) else none
  | c :: cs =>
    if lit.isPrefixOf (c :: cs) then some ([], c :: cs)
    else (splitAtLit lit cs).map (fun p => (c :: p.1, p.2))

/-- Split after the last occurrence of a literal: `s = pre ++ post` where
`pre` ends with the last occurrence of the literal. -/
def splitAfterLastLit (lit : Chars) : Chars → Option (Chars × Chars)
  | [] => if lit.isEmpty then some ([], []) else none
  | c :: cs =>
    match splitAfterLastLit lit cs with
    | some p => some (c :: p.1, p.2)
    | none =>
      if lit.isPrefixOf (c :: cs) then some (lit, (c :: cs).drop lit.length)
      else none

/-- Split off the maximal all-whitespace suffix: `l = a ++ w`. -/
def splitTrailingWs (l : Chars) : Chars × Chars :=
  let p := takeWs l.reverse
  (p.2.reverse, p.1.reverse)

/-- Embeds `_insert_dependencies_string_based`.  The repair pass
`_fix_common_xml_errors` and the well-formedness check
`_has_xml_syntax_errors` are taken as parameters (`fixErrs`, `hasErr`):
the claims about this function only constrain their results (the check
delegates to the Python standard library XML parser), so every theorem
below holds for any instantiation and in particular for the real ones.
The `re.search` calls are embedded by their leftmost-match semantics: a
pattern `(\s*)<tag>` matches first at the maximal whitespace run that
precedes the first occurrence of the literal `<tag>`, and
`</dependency>(\s*?)(?!.*</dependency>)` matches the last occurrence of
`</dependency>` with an empty group. -/
def insert_dependencies_string_based (hasErr : Chars → Bool) (fixErrs : Chars → Chars)
    (pom_content : Chars) (deps : List DependencyInfo) : Except String Chars :=
  let pom_content := fixErrs pom_content
  if hasErr pom_content then
    Except.error "POM文件存在复杂的XML语法错误，无法自动修复，请手动修复后再添加依赖"
  else
    match splitAtLit (chars "</dependencies>") pom_content with
    | some p =>
      let q := splitTrailingWs p.1
      Except.ok (q.1 ++ '\n' :: q.2 ++ chars "<!-- DBJavaGenix 自动添加的依赖 -->" ++
        '\n' :: generate_dependencies_xml deps ++ q.2 ++ p.2)
    | none =>
      match splitAtLit (chars "<dependencies>") pom_content with
      | some _ =>
        match splitAfterLastLit (chars "</dependency>") pom_content with
        | some p =>
          Except.ok (p.1 ++ chars "\n\n        <!-- DBJavaGenix 自动添加的依赖 -->\n" ++
            generate_dependencies_xml deps ++ chars "\n    </dependencies>" ++ p.2)
        | none =>
          match splitAtLit (chars "<dependencies>") pom_content with
          | some p =>
            let w := takeWs (p.2.drop 14)
            Except.ok (p.1 ++ chars "<dependencies>" ++ w.1 ++
              chars "\n        <!-- DBJavaGenix 自动添加的依赖 -->\n" ++
              generate_dependencies_xml deps ++ chars "\n    </dependencies>\n" ++ w.2)
          | none => Except.error "无法找到合适的位置插入依赖"
      | none =>
        match splitAtLit (chars "</project>") pom_content with
        | some p =>
          let q := splitTrailingWs p.1
          Except.ok (q.1 ++ generate_dependencies_block deps ++ chars "\n\n" ++ q.2 ++ p.2)
        | none => Except.error "无法找到合适的位置插入依赖"

/-- Entry of the `skipped_dependencies` list of `_add_maven_dependencies`. -/
structure SkippedDependency where
  dependency : Chars
  reason : Chars
  current_version : Chars
  requested_version : String

/-- Embeds the `DependencyAddResult` dataclass of
`auto_dependency_manager.py`. -/
structure DependencyAddResult where
  success : Bool
  added_dependencies : List DependencyInfo
  skipped_dependencies : List SkippedDependency
  errors : List String
  backup_file : Option String

/-- Embeds `AutoDependencyManager._add_maven_dependencies` (the
four-parameter method actually bound on the class).  The pair returned is
the result object together with the pom.xml content on disk after the
call; the timestamped backup copy is modelled by its presence only. -/
def add_maven_dependencies (hasErr : Chars → Bool) (fixErrs : Chars → Chars)
    (pom_content : Chars) (deps : List DependencyInfo)
    (create_backup dry_run : Bool) : DependencyAddResult × Chars :=
  let existing := parse_existing_dependencies pom_content
  let added := deps.filter (fun d => !(existing.any (fun e => e.1 == depKeyChars d)))
  let skipped := (deps.filter (fun d => existing.any (fun e => e.1 == depKeyChars d))).map
    (fun d =>
      let cur := (dictGetLast existing (depKeyChars d)).getD []
      { dependency := depKeyChars d
        reason := chars "已存在版本: " ++ cur
        current_version := cur
        requested_version := d.version })
  if added.isEmpty then
    ({ success := true, added_dependencies := [], skipped_dependencies := skipped,
       errors := [], backup_file := none }, pom_content)
  else if dry_run then
    ({ success := true, added_dependencies := added, skipped_dependencies := skipped,
       errors := [], backup_file := none }, pom_content)
  else
    let backup := if create_backup then some "pom_backup_<timestamp>.xml" else none
    match insert_dependencies_string_based hasErr fixErrs pom_content added with
    | Except.ok newPom =>
      ({ success := true, added_dependencies := added, skipped_dependencies := skipped,
         errors := [], backup_file := backup }, newPom)
    | Except.error e =>
      ({ success := false, added_dependencies := [], skipped_dependencies := [],
         errors := ["Maven依赖添加失败: " ++ e], backup_file := backup }, pom_content)

/-- The orchestration order of
`DependencyManager.check_and_fix_dependencies`: the read-only analysis
summary is computed before the mutation step and is returned alongside
the mutation result unconditionally. -/
def analyze_then_add (hasErr : Chars → Bool) (fixErrs : Chars → Chars)
    (requirements : Requirements) (existing : List ExistingDependency)
    (pom_content : Chars) (deps : List DependencyInfo)
    (create_backup dry_run : Bool) :
    AnalysisSummary × DependencyAddResult × Chars :=
  let comps := compare_dependencies requirements existing
  let r := add_maven_dependencies hasErr fixErrs pom_content deps create_backup dry_run
  (generate_summary comps, r.1, r.2)

/-- All characters whitespace. -/
def WsOnly (l : Chars) : Prop := ∀ c ∈ l, isPyWs c = true

/-- Every occurrence of `<` is immediately followed by one of the tag
continuations `g`, `a`, `v`, `/g`, `/a` or `/v`.  This holds for the
interior of any consumed dependency-pattern match and rules out a second
`<dependency>` literal (`<` followed by `d`) beginning strictly inside
one. -/
def ltSuccOk : Chars → Bool
  | [] => true
  | c :: rest =>
    (c != '<' ||
      (match rest with
       | 'g' :: _ => true
       | 'a' :: _ => true
       | 'v' :: _ => true
       | '/' :: 'g' :: _ => true
       | '/' :: 'a' :: _ => true
       | '/' :: 'v' :: _ => true
       | _ => false)) && ltSuccOk rest

/-- Specification-side reading of "the existing version numerically
precedes the requirement's version": the matched dependency carries a
(nonempty) version string and the numeric comparison classifies it as
older than the required one. -/
def versionPrecedes (e : ExistingDependency) (required : String) : Prop :=
  ∃ v, e.version = some v ∧ v ≠ "" ∧ is_version_outdated v required = true

theorem existingLookup_eq_none_iff (deps : List ExistingDependency) (k : String) :
    existingLookup deps k = none ↔ ∀ e ∈ deps, e.key ≠ k := by
  simp [existingLookup, List.find?_eq_none]

theorem existingLookup_isSome_iff (deps : List ExistingDependency) (k : String) :
    (∃ e, existingLookup deps k = some e) ↔ ∃ e ∈ deps, e.key = k := by
  rw [← Option.isSome_iff_exists, existingLookup, List.find?_isSome]
  constructor
  · rintro ⟨e, he, hk⟩
    exact ⟨e, List.mem_reverse.mp he, by simpa using hk⟩
  · rintro ⟨e, he, hk⟩
    exact ⟨e, List.mem_reverse.mpr he, by simpa using hk⟩

theorem existingLookup_mem (deps : List ExistingDependency) (k : String)
    (e : ExistingDependency) (h : existingLookup deps k = some e) :
    e ∈ deps ∧ e.key = k := by
  refine ⟨List.mem_reverse.mp (List.mem_of_find?_eq_some h), ?_⟩
  simpa using List.find?_some h

theorem compareOne_requirement (req : DependencyInfo) (x : Option ExistingDependency) :
    (compareOne req x).requirement = req := by
  cases x with
  | none => rfl
  | some e =>
    simp only [compareOne]
    repeat' split
    all_goals rfl

theorem compareOne_status_missing (req : DependencyInfo) :
    (compareOne req none).status = "missing" := rfl

theorem compareOne_status_deprecated (req : DependencyInfo) (e : ExistingDependency)
    (h : req.status = DependencyStatus.deprecated) :
    (compareOne req (some e)).status = "deprecated" := by
  simp [compareOne, h]

theorem compareOne_status_outdated (req : DependencyInfo) (e : ExistingDependency)
    (h : req.status ≠ DependencyStatus.deprecated)
    (hp : versionPrecedes e req.version) :
    (compareOne req (some e)).status = "outdated" := by
  rcases hp with ⟨v, hv, hne, hout⟩
  simp [compareOne, h, hv, hne, hout]

theorem compareOne_status_exists (req : DependencyInfo) (e : ExistingDependency)
    (h : req.status ≠ DependencyStatus.deprecated)
    (hp : ¬ versionPrecedes e req.version) :
    (compareOne req (some e)).status = "exists" := by
  cases hv : e.version with
  | none => simp [compareOne, h, hv]
  | some v =>
    have hno : ¬ ((v ≠ "" && is_version_outdated v req.version) = true) := by
      intro hand
      rcases Bool.and_eq_true_iff.mp hand with ⟨h1, h2⟩
      exact hp ⟨v, hv, by simpa using h1, h2⟩
    simp only [compareOne, hv]
    rw [if_neg h, if_neg hno]

/-- C1: each comparison produced by `_compare_dependencies` has status
`missing` iff no existing dependency shares the requirement's coordinate
key; `deprecated` iff a match exists and the requirement itself is
catalog-deprecated (regardless of version); `outdated` iff a match exists,
the requirement is not deprecated, and the matched version numerically
precedes the required version; and `exists` otherwise. -/
theorem comparison_status_classification
    (requirements : Requirements) (existing_deps : List ExistingDependency)
    (c : DependencyComparison)
    (hc : c ∈ compare_dependencies requirements existing_deps) :
    (c.status = "missing" ↔ ∀ e ∈ existing_deps, e.key ≠ c.requirement.key) ∧
    (c.status = "deprecated" ↔
      (∃ e ∈ existing_deps, e.key = c.requirement.key) ∧
      c.requirement.status = DependencyStatus.deprecated) ∧
    (c.status = "outdated" ↔
      ∃ e, existingLookup existing_deps c.requirement.key = some e ∧
        c.requirement.status ≠ DependencyStatus.deprecated ∧
        versionPrecedes e c.requirement.version) ∧
    (c.status = "exists" ↔
      ∃ e, existingLookup existing_deps c.requirement.key = some e ∧
        c.requirement.status ≠ DependencyStatus.deprecated ∧
        ¬ versionPrecedes e c.requirement.version) := by
  rcases List.mem_map.mp hc with ⟨req, _hreq, rfl⟩
  rw [compareOne_requirement]
  rcases hlook : existingLookup existing_deps req.key with _ | e
  · have hnone : ∀ e ∈ existing_deps, e.key ≠ req.key :=
      (existingLookup_eq_none_iff existing_deps req.key).mp hlook
    have hnosome : ¬ ∃ e ∈ existing_deps, e.key = req.key := by
      rintro ⟨e, he, hk⟩; exact hnone e he hk
    rw [compareOne_status_missing]
    refine ⟨⟨fun _ => hnone, fun _ => rfl⟩, ?_, ?_, ?_⟩
    · exact ⟨fun h => absurd h (by decide), fun ⟨hex, _⟩ => absurd hex hnosome⟩
    · exact ⟨fun h => absurd h (by decide), fun ⟨x, hx, _⟩ => by cases hx⟩
    · exact ⟨fun h => absurd h (by decide), fun ⟨x, hx, _⟩ => by cases hx⟩
  · have hsome : ∃ x ∈ existing_deps, x.key = req.key :=
      (existingLookup_isSome_iff existing_deps req.key).mp ⟨e, hlook⟩
    by_cases hdep : req.status = DependencyStatus.deprecated
    · rw [compareOne_status_deprecated req e hdep]
      refine ⟨?_, ⟨fun _ => ⟨hsome, hdep⟩, fun _ => rfl⟩, ?_, ?_⟩
      · refine ⟨fun h => absurd h (by decide), fun hall => ?_⟩
        rcases hsome with ⟨x, hx, hk⟩
        exact absurd hk (hall x hx)
      · exact ⟨fun h => absurd h (by decide), fun ⟨x, _, hnd, _⟩ => absurd hdep hnd⟩
      · exact ⟨fun h => absurd h (by decide), fun ⟨x, _, hnd, _⟩ => absurd hdep hnd⟩
    · by_cases hprec : versionPrecedes e req.version
      · rw [compareOne_status_outdated req e hdep hprec]
        refine ⟨?_, ?_, ⟨fun _ => ⟨e, rfl, hdep, hprec⟩, fun _ => rfl⟩, ?_⟩
        · refine ⟨fun h => absurd h (by decide), fun hall => ?_⟩
          rcases hsome with ⟨x, hx, hk⟩
          exact absurd hk (hall x hx)
        · exact ⟨fun h => absurd h (by decide), fun ⟨_, hd⟩ => absurd hd hdep⟩
        · refine ⟨fun h => absurd h (by decide), fun ⟨x, hx, _, hnp⟩ => ?_⟩
          cases hx
          exact absurd hprec hnp
      · rw [compareOne_status_exists req e hdep hprec]
        refine ⟨?_, ?_, ?_, ⟨fun _ => ⟨e, rfl, hdep, hprec⟩, fun _ => rfl⟩⟩
        · refine ⟨fun h => absurd h (by decide), fun hall => ?_⟩
          rcases hsome with ⟨x, hx, hk⟩
          exact absurd hk (hall x hx)
        · exact ⟨fun h => absurd h (by decide), fun ⟨_, hd⟩ => absurd hd hdep⟩
        · refine ⟨fun h => absurd h (by decide), fun ⟨x, hx, _, hp⟩ => ?_⟩
          cases hx
          exact absurd hp hprec

/-- C1 witness: the classification theorem instantiated at the singleton
profile against an empty manifest. -/
theorem comparison_status_classification_witness :
    compareOne sampleReq none ∈ compare_dependencies sampleReqs [] ∧
    ((compareOne sampleReq none).status = "missing" ↔
      ∀ e ∈ ([] : List ExistingDependency), e.key ≠ (compareOne sampleReq none).requirement.key) :=
  ⟨List.Mem.head _,
    (comparison_status_classification sampleReqs [] (compareOne sampleReq none)
      (List.Mem.head _)).1⟩

/-- C2: the health-report score equals
`max(0, 100 − 10·missing − 5·outdated − 5·deprecated)`, and in particular
it is 75 whenever there are 2 missing, 1 outdated and 0 deprecated
comparisons. -/
theorem health_report_score_formula (comps : List DependencyComparison) :
    health_report_score comps =
      max 0 (100 - 10 * (countStatus comps "missing" : Int) -
        5 * (countStatus comps "outdated" : Int) - 5 * (countStatus comps "deprecated" : Int)) ∧
    (countStatus comps "missing" = 2 → countStatus comps "outdated" = 1 →
      countStatus comps "deprecated" = 0 → health_report_score comps = 75) := by
  constructor
  · unfold health_report_score
    congr 1
    ring
  · intro h1 h2 h3
    unfold health_report_score
    rw [h1, h2, h3]
    decide

/-- C2 witness: a concrete comparison list with 2 missing, 1 outdated and
0 deprecated comparisons scores 75. -/
theorem health_report_score_formula_witness :
    countStatus scoreComps "missing" = 2 ∧ countStatus scoreComps "outdated" = 1 ∧
    countStatus scoreComps "deprecated" = 0 ∧ health_report_score scoreComps = 75 :=
  ⟨rfl, rfl, rfl, (health_report_score_formula scoreComps).2 rfl rfl rfl⟩

/-- C6 counterexample: the version string "Final" has no numeric
components at all (it "cannot be parsed numerically"), yet the comparator
classifies it as outdated against the required version "1.0" instead of
returning "not outdated". -/
theorem version_parse_failure_counterexample :
    versionParts "Final" = [] ∧ is_version_outdated "Final" "1.0" = true := by
  constructor
  · rfl
  · rfl

theorem pyListLt_iff_exists : ∀ a b : List Nat, a.length = b.length →
    (pyListLt a b = true ↔
      ∃ i, (∀ j, j < i → a.getD j 0 = b.getD j 0) ∧ a.getD i 0 < b.getD i 0)
  | [], [], _ => by
    simp only [pyListLt]
    constructor
    · intro h; cases h
    · rintro ⟨i, _, hlt⟩
      simp [List.getD] at hlt
  | [], b :: bs, h => by cases h
  | a :: as, [], h => by cases h
  | a :: as, b :: bs, h => by
    have hlen : as.length = bs.length := by simpa using h
    simp only [pyListLt]
    by_cases hab : a < b
    · rw [if_pos hab]
      constructor
      · intro _
        exact ⟨0, fun j hj => absurd hj (Nat.not_lt_zero j), by simpa using hab⟩
      · intro _; rfl
    · rw [if_neg hab]
      by_cases hba : b < a
      · rw [if_pos hba]
        constructor
        · intro h; cases h
        · rintro ⟨i, hpre, hlt⟩
          cases i with
          | zero =>
            simp only [List.getD_cons_zero] at hlt
            exact absurd hlt hab
          | succ i =>
            have h0 := hpre 0 (Nat.succ_pos i)
            simp only [List.getD_cons_zero] at h0
            omega
      · rw [if_neg hba]
        have heq : a = b := Nat.le_antisymm (Nat.le_of_not_lt hba) (Nat.le_of_not_lt hab)
        rw [pyListLt_iff_exists as bs hlen]
        constructor
        · rintro ⟨i, hpre, hlt⟩
          refine ⟨i + 1, ?_, by simpa using hlt⟩
          intro j hj
          cases j with
          | zero => simpa using heq
          | succ j => simpa using hpre j (by omega)
        · rintro ⟨i, hpre, hlt⟩
          cases i with
          | zero =>
            simp only [List.getD_cons_zero] at hlt
            omega
          | succ i =>
            refine ⟨i, ?_, by simpa using hlt⟩
            intro j hj
            have := hpre (j + 1) (by omega)
            simpa using this

theorem padZeros_getD (l : List Nat) (n j : Nat) :
    (padZeros l n).getD j 0 = l.getD j 0 := by
  unfold padZeros
  by_cases hj : j < l.length
  · rw [List.getD_append _ _ _ _ hj]
  · rw [List.getD_eq_getElem?_getD, List.getElem?_append_right (Nat.le_of_not_lt hj)]
    rw [List.getD_eq_getElem?_getD (l := l), List.getElem?_eq_none (Nat.le_of_not_lt hj)]
    rcases hlt : (List.replicate (n - l.length) 0)[j - l.length]? with _ | x
    · rfl
    · have := List.getElem?_mem hlt
      simp only [List.mem_replicate] at this
      simp [hlt, this.2]

/-- C6 (amended): the comparator splits both version strings on `.`, keeps
only the all-digit components as integers (silently skipping non-numeric
components rather than failing), pads the shorter tuple with zeros and
compares the tuples position by position, so existing `1.2.3` against
required `1.10.0` is numerically outdated; version strings with no numeric
components are compared as the empty (all-zero) tuple rather than being
treated as "not outdated". -/
theorem version_outdated_characterization (current required : String) :
    (is_version_outdated current required = true ↔
      vecLt (versionParts current) (versionParts required)) ∧
    is_version_outdated "1.2.3" "1.10.0" = true := by
  refine ⟨?_, rfl⟩
  unfold is_version_outdated vecLt
  have hlen : (padZeros (versionParts current)
      (max (versionParts current).length (versionParts required).length)).length =
      (padZeros (versionParts required)
        (max (versionParts current).length (versionParts required).length)).length := by
    unfold padZeros
    simp only [List.length_append, List.length_replicate]
    omega
  rw [pyListLt_iff_exists _ _ hlen]
  constructor
  · rintro ⟨i, hpre, hlt⟩
    refine ⟨i, fun j hj => ?_, ?_⟩
    · have := hpre j hj
      rwa [padZeros_getD, padZeros_getD] at this
    · rwa [padZeros_getD, padZeros_getD] at hlt
  · rintro ⟨i, hpre, hlt⟩
    refine ⟨i, fun j hj => ?_, ?_⟩
    · rw [padZeros_getD, padZeros_getD]
      exact hpre j hj
    · rw [padZeros_getD, padZeros_getD]
      exact hlt

/-- C10 counterexample: with 10 missing and 1 outdated comparison both the
per-analysis summary score and the health-report score clamp to 0, so the
summary score does NOT differ from the health-report score even though an
outdated comparison is present. -/
theorem summary_score_clamp_counterexample :
    0 < countStatus clampComps "outdated" ∧
    (generate_summary clampComps).health_score = health_report_score clampComps := by
  constructor
  · decide
  · rfl

/-- C10 (amended): the analysis summary's health score equals
`max(0, 100 − 10×(missing + outdated + deprecated))` — outdated and
deprecated findings weigh 10 points each here, not 5 — and it differs from
the health-report score exactly when an outdated or deprecated comparison
is present AND the health-report score is still positive (when both
formulas clamp to 0 they coincide). -/
theorem summary_score_formula (comps : List DependencyComparison) :
    (generate_summary comps).health_score =
      max 0 (100 - 10 * ((countStatus comps "missing" : Int) +
        (countStatus comps "outdated" : Int) + (countStatus comps "deprecated" : Int))) ∧
    ((generate_summary comps).health_score ≠ health_report_score comps ↔
      (0 < countStatus comps "outdated" + countStatus comps "deprecated" ∧
        0 < health_report_score comps)) := by
  have hsum : (generate_summary comps).health_score =
      max 0 (100 - ((countStatus comps "missing" : Int) +
        (countStatus comps "outdated" : Int) + (countStatus comps "deprecated" : Int)) * 10) := by
    rfl
  constructor
  · rw [hsum]
    congr 1
    ring
  · rw [hsum]
    unfold health_report_score
    have hcast : (0 < countStatus comps "outdated" + countStatus comps "deprecated") ↔
        (0 : Int) < (countStatus comps "outdated" : Int) + (countStatus comps "deprecated" : Int) := by
      constructor
      · intro h; exact_mod_cast h
      · intro h; exact_mod_cast h
    rw [hcast]
    omega

/-- C7 counterexample: three successive `analyze_requirements` calls on
the same catalog instance — the first and third with identical inputs
(profile `Default`/`mysql`, all flags, no framework version), the second
with Spring Boot version `2.5.0` in between — return different required
lists: the interleaved call leaves its version re-parameterization behind
in the shared catalog state, so the third call reports the Boot-2 pinned
versions while the first reported the defaults. -/
theorem catalog_state_leak_counterexample :
    ((analyze_requirements initCatalog "Default" "mysql" true true true none).2.required.map
        DependencyInfo.version ≠
      ((analyze_requirements
        (analyze_requirements
          (analyze_requirements initCatalog "Default" "mysql" true true true none).1
          "Default" "mysql" true true true (some "2.5.0")).1
        "Default" "mysql" true true true none).2.required.map DependencyInfo.version)) ∧
    (analyze_requirements initCatalog "Default" "mysql" true true true none).2.required.map
        DependencyInfo.version = ["3.5.5", "3.5.5", "3.5.5", "8.4.0", "3.5.16", "3.0.4"] ∧
    ((analyze_requirements
        (analyze_requirements
          (analyze_requirements initCatalog "Default" "mysql" true true true none).1
          "Default" "mysql" true true true (some "2.5.0")).1
        "Default" "mysql" true true true none).2.required.map DependencyInfo.version) =
      ["3.5.5", "3.5.5", "3.5.5", "8.0.33", "3.4.6", "3.0.4"] := by
  refine ⟨?_, rfl, rfl⟩
  decide

/-- C7 (amended): an `analyze_requirements` call that supplies a (truthy)
framework version is deterministic and immune to cross-call state leakage
— the per-call re-parameterization overwrites every mutable catalog field
as a function of the supplied version, so the returned buckets do not
depend on whatever state earlier calls left behind.  (Calls without a
framework version do leak state, as the counterexample shows.) -/
theorem analyze_requirements_deterministic_with_version
    (st1 st2 : CatalogState) (template_category database_type : String)
    (include_swagger include_lombok include_mapstruct : Bool)
    (v : String) (hv : v ≠ "") :
    (analyze_requirements st1 template_category database_type
      include_swagger include_lombok include_mapstruct (some v)).2 =
    (analyze_requirements st2 template_category database_type
      include_swagger include_lombok include_mapstruct (some v)).2 := by
  unfold analyze_requirements adjust_versions_for_spring_boot
  simp [hv]

/-- C7 witness: the determinism theorem instantiated at the initial state
versus a state polluted by a Boot-2 adjustment, with version "3.2.1". -/
theorem analyze_requirements_deterministic_with_version_witness :
    ("3.2.1" ≠ "") ∧
    (analyze_requirements initCatalog "MybatisPlus" "mysql" true true true (some "3.2.1")).2 =
      (analyze_requirements (adjust_versions_for_spring_boot initCatalog "2.5.0")
        "MybatisPlus" "mysql" true true true (some "3.2.1")).2 :=
  ⟨by decide,
    analyze_requirements_deterministic_with_version initCatalog
      (adjust_versions_for_spring_boot initCatalog "2.5.0")
      "MybatisPlus" "mysql" true true true "3.2.1" (by decide)⟩

/-- C9 counterexample: the `mysql-legacy` entry of the catalog's database
dictionary has status `deprecated` but a null `migration_target`. -/
theorem mysql_legacy_no_migration_counterexample :
    mysql_legacy ∈ catalogEntries initCatalog ∧
    mysql_legacy.status = DependencyStatus.deprecated ∧
    mysql_legacy.migration_target = none := by
  refine ⟨?_, rfl, rfl⟩
  simp [catalogEntries]

/-- C9 (amended): every requirement placed in the `deprecated` bucket of
any `analyze_requirements` result has a non-null `migration_target`, and
that target is the corresponding modern variant tagged `recommended`
(javax annotation → jakarta annotation, javax validation → jakarta
validation, swagger 2.x annotations → springdoc); the catalog's
`mysql-legacy` entry, however, is deprecated with no migration target. -/
theorem deprecated_bucket_migration_complete
    (st : CatalogState) (template_category database_type : String)
    (include_swagger include_lombok include_mapstruct : Bool)
    (spring_boot_version : Option String) (d : DependencyInfo)
    (hd : d ∈ (analyze_requirements st template_category database_type
      include_swagger include_lombok include_mapstruct spring_boot_version).2.deprecated) :
    d.status = DependencyStatus.deprecated ∧
    ∃ t, d.migration_target = some t ∧ t.status = DependencyStatus.recommended := by
  have hbucket : (analyze_requirements st template_category database_type
      include_swagger include_lombok include_mapstruct spring_boot_version).2.deprecated =
      (if include_swagger then [swagger_annotations_deprecated] else []) ++
        [javax_annotation_deprecated, javax_validation_deprecated] := by
    unfold analyze_requirements
    cases spring_boot_version with
    | none => rfl
    | some v => by_cases hv : v ≠ "" <;> simp [hv]
  rw [hbucket] at hd
  cases include_swagger with
  | false =>
    simp only [Bool.false_eq_true, if_false, List.nil_append, List.mem_cons,
      List.mem_singleton, List.not_mem_nil, or_false] at hd
    rcases hd with rfl | rfl
    · exact ⟨rfl, jakarta_annotation, rfl, rfl⟩
    · exact ⟨rfl, jakarta_validation, rfl, rfl⟩
  | true =>
    simp only [if_true, List.cons_append, List.nil_append, List.mem_cons,
      List.not_mem_nil, or_false] at hd
    rcases hd with rfl | rfl | rfl
    · exact ⟨rfl, springdoc_openapi, rfl, rfl⟩
    · exact ⟨rfl, jakarta_annotation, rfl, rfl⟩
    · exact ⟨rfl, jakarta_validation, rfl, rfl⟩

/-- C9 witness: the migration-completeness theorem instantiated at the
default profile and the javax annotation entry. -/
theorem deprecated_bucket_migration_complete_witness :
    javax_annotation_deprecated ∈
      (analyze_requirements initCatalog "Default" "mysql" true true true none).2.deprecated ∧
    (javax_annotation_deprecated.status = DependencyStatus.deprecated ∧
      ∃ t, javax_annotation_deprecated.migration_target = some t ∧
        t.status = DependencyStatus.recommended) :=
  ⟨by simp [analyze_requirements],
    deprecated_bucket_migration_complete initCatalog "Default" "mysql" true true true none
      javax_annotation_deprecated (by simp [analyze_requirements])⟩

/-- C5 counterexample: a project whose manifest contains the modern
API-doc coordinate `org.springdoc:springdoc-openapi-starter-webmvc-ui`
but whose Spring Boot version is `2.7.0` still gets the legacy API-doc
coordinate `io.swagger:swagger-annotations` selected for insertion — the
filter's Boot-2 branch blocks springdoc and lets the legacy coordinate
through, refuting "no legacy API-doc coordinate is ever selected when a
modern one is present". -/
theorem stack_consistency_counterexample :
    "org.springdoc:springdoc-openapi-starter-webmvc-ui" ∈ springdocCoords ∧
    select_missing_for_add springdocCoords (some "2.7.0") swaggerComps =
      [swagger_annotations_deprecated] ∧
    swagger_annotations_deprecated.group_id = "io.swagger" :=
  ⟨List.Mem.head _, rfl, rfl⟩

theorem pyStartsWith_coordKey (g a p : String) (h : p.data = g.data ++ [':']) :
    pyStartsWith (coordKey g a) p = true := by
  unfold pyStartsWith coordKey
  rw [List.isPrefixOf_iff_prefix, String.data_append, String.data_append, h]
  have : (":" : String).data = [':'] := rfl
  rw [this]
  exact List.prefix_append _ _

/-- C5 (amended): the stack-consistency guard the filter actually
implements — when the project is on Spring Boot 2.x or its manifest
contains a legacy API-doc coordinate (an `io.springfox:` key or exactly
`io.swagger:swagger-annotations`), no requirement of the modern API-doc
group `org.springdoc` is ever selected for insertion; otherwise no
requirement of the legacy groups `io.swagger`/`io.springfox` is ever
selected. -/
theorem stack_consistency_filter
    (existing_coords : List String) (boot_version : Option String)
    (comps : List DependencyComparison) (d : DependencyInfo)
    (hd : d ∈ select_missing_for_add existing_coords boot_version comps) :
    (if is_boot2 boot_version || uses_legacy_swagger existing_coords then
      d.group_id ≠ "org.springdoc"
     else d.group_id ≠ "io.swagger" ∧ d.group_id ≠ "io.springfox") := by
  unfold select_missing_for_add at hd
  rcases List.mem_map.mp hd with ⟨c, hc, rfl⟩
  have hallow : is_allowed (is_boot2 boot_version) (uses_legacy_swagger existing_coords) c
      = true := (List.mem_filter.mp (List.mem_filter.mp hc).1).2
  unfold is_allowed at hallow
  rcases hbr : (is_boot2 boot_version || uses_legacy_swagger existing_coords) with _ | _
  · rw [if_neg (by decide : ¬ ((false : Bool) = true))]
    constructor
    · intro hg
      have hp : pyStartsWith c.requirement.key "io.swagger:" = true :=
        pyStartsWith_coordKey _ _ _ (by rw [hg]; rfl)
      rw [hbr] at hallow
      simp only [Bool.false_and, Bool.not_false, Bool.true_and, hp, Bool.true_or,
        if_true, if_false] at hallow
      split at hallow <;> simp_all
    · intro hg
      have hp : pyStartsWith c.requirement.key "io.springfox:" = true :=
        pyStartsWith_coordKey _ _ _ (by rw [hg]; rfl)
      rw [hbr] at hallow
      simp only [Bool.false_and, Bool.not_false, Bool.true_and, hp, Bool.or_true,
        if_true, if_false] at hallow
      split at hallow <;> simp_all
  · rw [if_pos rfl]
    intro hg
    have hp : pyStartsWith c.requirement.key "org.springdoc:" = true :=
      pyStartsWith_coordKey _ _ _ (by rw [hg]; rfl)
    rw [hbr] at hallow
    simp only [Bool.true_and, hp, if_true] at hallow
    split at hallow <;> simp_all

/-- C5 witness: the amended filter theorem instantiated on a modern-stack
project (Boot 3, no legacy coordinates), checking the selected springdoc
requirement is not from a legacy group. -/
theorem stack_consistency_filter_witness :
    springdoc_openapi ∈ select_missing_for_add [] (some "3.2.0")
      [compareOne springdoc_openapi none] ∧
    (if is_boot2 (some "3.2.0") || uses_legacy_swagger [] then
      springdoc_openapi.group_id ≠ "org.springdoc"
     else springdoc_openapi.group_id ≠ "io.swagger" ∧
       springdoc_openapi.group_id ≠ "io.springfox") :=
  ⟨List.Mem.head _,
    stack_consistency_filter [] (some "3.2.0") [compareOne springdoc_openapi none]
      springdoc_openapi (List.Mem.head _)⟩

/-- C8 (code bug): `dependency_manager.py` calls `re.sub` inside
`_fix_maven_deprecated_deps` but its module header never imports `re`, so
on a manifest that does contain a deprecated coordinate the auto-fix
raises `NameError: name 're' is not defined` before rewriting anything;
`_auto_fix_deprecated_dependencies` catches it and reports failure with
the manifest left unchanged — the claimed rewrite-and-report-success
behaviour never happens. -/
theorem deprecated_autofix_name_error :
    "re" ∉ dependency_manager_imports ∧
    ("<groupId>javax.annotation</groupId>".data <:+: deprecatedPom.data) ∧
    (auto_fix_deprecated_dependencies deprecatedPom).1.success = false ∧
    (auto_fix_deprecated_dependencies deprecatedPom).1.message =
      "修复依赖失败: name 're' is not defined" ∧
    (auto_fix_deprecated_dependencies deprecatedPom).2 = deprecatedPom := by
  refine ⟨by decide, by decide, rfl, rfl, rfl⟩

/-- C3: when the manifest content still fails the XML well-formedness
check after the bounded repair pass, and the call actually attempts an
insertion (not a dry run, at least one non-duplicate dependency), the
Maven dependency-add operation reports an unsuccessful result with a
non-empty error list, the manifest content on disk is left byte-for-byte
unchanged (the raise happens before the write is reached), and the
read-only analysis summary is still produced unchanged. -/
theorem corrupt_manifest_aborts_write
    (hasErr : Chars → Bool) (fixErrs : Chars → Chars)
    (requirements : Requirements) (existing : List ExistingDependency)
    (pom_content : Chars) (deps : List DependencyInfo) (create_backup : Bool)
    (hcorrupt : hasErr (fixErrs pom_content) = true)
    (hnew : ∃ d ∈ deps, ¬ ∃ e ∈ parse_existing_dependencies pom_content, e.1 = depKeyChars d) :
    (analyze_then_add hasErr fixErrs requirements existing pom_content deps
        create_backup false).2.1.success = false ∧
    (analyze_then_add hasErr fixErrs requirements existing pom_content deps
        create_backup false).2.1.errors ≠ [] ∧
    (analyze_then_add hasErr fixErrs requirements existing pom_content deps
        create_backup false).2.2 = pom_content ∧
    (analyze_then_add hasErr fixErrs requirements existing pom_content deps
        create_backup false).1 =
      generate_summary (compare_dependencies requirements existing) := by
  rcases hnew with ⟨d, hd, hno⟩
  have hpred : (parse_existing_dependencies pom_content).any
      (fun e => e.1 == depKeyChars d) = false := by
    rw [List.any_eq_false]
    intro e he
    simp only [beq_iff_eq]
    intro hk
    exact hno ⟨e, he, hk⟩
  have hmem : d ∈ deps.filter
      (fun d => !((parse_existing_dependencies pom_content).any
        (fun e => e.1 == depKeyChars d))) :=
    List.mem_filter.mpr ⟨hd, by rw [hpred]; rfl⟩
  have hne : (deps.filter
      (fun d => !((parse_existing_dependencies pom_content).any
        (fun e => e.1 == depKeyChars d)))).isEmpty = false := by
    rcases h : deps.filter (fun d => !((parse_existing_dependencies pom_content).any
        (fun e => e.1 == depKeyChars d))) with _ | _
    · rw [h] at hmem; cases hmem
    · rfl
  have hins : insert_dependencies_string_based hasErr fixErrs pom_content
      (deps.filter (fun d => !((parse_existing_dependencies pom_content).any
        (fun e => e.1 == depKeyChars d)))) =
      Except.error "POM文件存在复杂的XML语法错误，无法自动修复，请手动修复后再添加依赖" := by
    unfold insert_dependencies_string_based
    rw [if_pos hcorrupt]
  unfold analyze_then_add add_maven_dependencies
  simp [hne, hins]

/-- C3 witness: a content whose post-repair check fails (checker constant
true, repair the identity) with one fresh dependency to add. -/
theorem corrupt_manifest_aborts_write_witness :
    ((fun _ : Chars => true) ((fun c : Chars => c) (chars "<project></project>")) = true) ∧
    (∃ d ∈ [sampleReq], ¬ ∃ e ∈ parse_existing_dependencies (chars "<project></project>"),
      e.1 = depKeyChars d) ∧
    ((analyze_then_add (fun _ => true) (fun c => c) sampleReqs [] (chars "<project></project>")
        [sampleReq] false false).2.1.success = false ∧
      (analyze_then_add (fun _ => true) (fun c => c) sampleReqs [] (chars "<project></project>")
        [sampleReq] false false).2.1.errors ≠ [] ∧
      (analyze_then_add (fun _ => true) (fun c => c) sampleReqs [] (chars "<project></project>")
        [sampleReq] false false).2.2 = chars "<project></project>" ∧
      (analyze_then_add (fun _ => true) (fun c => c) sampleReqs [] (chars "<project></project>")
        [sampleReq] false false).1 =
        generate_summary (compare_dependencies sampleReqs [])) := by
  have hparse : parse_existing_dependencies (chars "<project></project>") = [] := rfl
  refine ⟨rfl, ⟨sampleReq, List.Mem.head _, ?_⟩, ?_⟩
  · rintro ⟨e, he, -⟩
    rw [hparse] at he
    cases he
  · exact corrupt_manifest_aborts_write (fun _ => true) (fun c => c) sampleReqs []
      (chars "<project></project>") [sampleReq] false rfl
      ⟨sampleReq, List.Mem.head _, by rintro ⟨e, he, -⟩; rw [hparse] at he; cases he⟩

/-! ### Scanner primitive lemmas -/

theorem takeWs_of_append : ∀ (w : Chars), WsOnly w → ∀ (c : Char) (r : Chars),
    isPyWs c = false → takeWs (w ++ c :: r) = (w, c :: r)
  | [], _, c, r, hc => by
    simp only [List.nil_append, takeWs, hc]
    rw [if_neg (by simp [hc])]
  | x :: w', hw, c, r, hc => by
    have hx : isPyWs x = true := hw x (List.mem_cons_self x w')
    have hw' : WsOnly w' := fun y hy => hw y (List.mem_cons_of_mem x hy)
    have ih := takeWs_of_append w' hw' c r hc
    simp only [List.cons_append, takeWs, if_pos hx, List.append_eq]
    rw [ih]

theorem takeNonLt_of_append : ∀ (g : Chars), '<' ∉ g → ∀ r : Chars,
    takeNonLt (g ++ '<' :: r) = (g, '<' :: r)
  | [], _, r => by
    simp [takeNonLt]
  | x :: g', hg, r => by
    have hx : ¬ x = '<' := fun h => hg (h ▸ List.mem_cons_self x g')
    have hg' : '<' ∉ g' := fun h => hg (List.mem_cons_of_mem x h)
    have ih := takeNonLt_of_append g' hg' r
    simp only [List.cons_append, takeNonLt, if_neg hx, List.append_eq]
    rw [ih]

theorem litDependencyOpen_cons : litDependencyOpen = '<' :: chars "dependency>" := rfl

theorem litGroupIdOpen_cons : litGroupIdOpen = '<' :: chars "groupId>" := rfl

theorem litGroupIdClose_cons : litGroupIdClose = '<' :: chars "/groupId>" := rfl

theorem litArtifactIdOpen_cons : litArtifactIdOpen = '<' :: chars "artifactId>" := rfl

theorem litArtifactIdClose_cons : litArtifactIdClose = '<' :: chars "/artifactId>" := rfl

theorem litVersionOpen_cons : litVersionOpen = '<' :: chars "version>" := rfl

theorem litVersionClose_cons : litVersionClose = '<' :: chars "/version>" := rfl

theorem ltSuccOk_versionClose (r : Chars) : ltSuccOk (litVersionClose ++ r) = ltSuccOk r := rfl

end DBJavaGenix
